import Mathlib

/-!
Verification development for the grooming-report pipeline of
src/send_report.py.

The pure decision logic of the program (pattern-rule extraction from the
scraped page text, hourly-series alignment, caption composition, the SMS
configuration gate, and the control flow of the run) is embedded as
executable Lean definitions.  External collaborators (the browser fetch,
the HTTP PDF fetch plus raise_for_status, the PDF rasterizer, the SMTP
server and the Telegram client) are modelled by environment fields that
say whether each external call succeeds, matching the treatment in the
spec of them as black-box send/fetch operations.

The Python regular expressions of get_opensnow_data are embedded via a
small backtracking engine (RE below) whose semantics mirrors the re
module on the constructs those patterns use: string literals, ordered
alternation of literals, greedy and lazy counted quantifiers over
one-character classes, a single capture group, zero-width lookahead of
literal alternatives (optionally also matching end of input in the way
the dollar anchor does without MULTILINE), and the word-boundary
assertion.  Character classes are modelled over ASCII, which is the
alphabet the scraped fields use.
-/

/-- Whitespace class of the re module (ASCII part): space, tab, newline, carriage
return, vertical tab, form feed. -/
def pyIsSpace (c : Char) : Bool :=
  c == ' ' || c == '\t' || c == '\n' || c == '\r' || c == '\x0b' || c == '\x0c'

/-- Digit class of the re module (ASCII part). -/
def pyIsDigit (c : Char) : Bool :=
  '0' ≤ c && c ≤ '9'

/-- ASCII letters. -/
def isAsciiAlpha (c : Char) : Bool :=
  ('a' ≤ c && c ≤ 'z') || ('A' ≤ c && c ≤ 'Z')

/-- Word-character class of the re module (ASCII part), used by the word-boundary
assertion. -/
def isWordChar (c : Char) : Bool :=
  pyIsDigit c || isAsciiAlpha c || c == '_'

/-- Regular-expression shapes, covering exactly the constructs
used by the patterns in get_opensnow_data.
cls p lo hi lz is a quantified one-character class: between lo and hi
repetitions of a character satisfying p (hi = none meaning unbounded),
lazy when lz is true, greedy otherwise.
look ls allowEnd is a zero-width lookahead that succeeds when one of the
literals in ls starts here, or, when allowEnd is true, at the position
the dollar anchor accepts. -/
inductive RE : Type where
  | lit : List Char → RE
  | alts : List (List Char) → RE
  | cls : (Char → Bool) → Nat → Option Nat → Bool → RE
  | grp : RE → RE
  | look : List (List Char) → Bool → RE
  | bnd : RE
  | cat : RE → RE → RE

/-- First defined element of a list of options: the backtracking engine
tries branches in priority order and keeps the first success. -/
def firstSome {α : Type} : List (Option α) → Option α
  | [] => none
  | some a :: _ => some a
  | none :: rest => firstSome rest

/-- The slice of t from position i (inclusive) to j (exclusive). -/
def sliceChars (t : List Char) (i j : Nat) : List Char :=
  (t.drop i).take (j - i)

/-- Whether the character at position i of t is a word character
(out-of-range counts as non-word, as at the edges of a Python string). -/
def wordAt (t : List Char) (i : Nat) : Bool :=
  match t[i]? with
  | some c => isWordChar c
  | none => false

/-- The word-boundary assertion of the re module at position i. -/
def atBoundary (t : List Char) (i : Nat) : Bool :=
  (if i = 0 then false else wordAt t (i - 1)) != wordAt t i

/-- Where the dollar anchor matches without MULTILINE: at the end of the
input, or just before a newline that ends the input. -/
def eosAt (t : List Char) (i : Nat) : Bool :=
  i == t.length || (i + 1 == t.length && t[i]? == some '\n')

/-- Whether a lookahead with literal alternatives ls (and optionally the
dollar anchor) succeeds at position i. -/
def lookOk (t : List Char) (i : Nat) (ls : List (List Char)) (allowEnd : Bool) : Bool :=
  ls.any (fun l => l.isPrefixOf (t.drop i)) || (allowEnd && eosAt t i)

/-- Result of one match attempt: end position of the whole match and the
contents of the capture group, when one participated. -/
abbrev MRes := Nat × Option (List Char)

/-- Backtracking matcher in continuation-passing style.  mM t re i cap k
attempts to match re in t starting at position i, with cap the capture
recorded so far; on each way the match can succeed it calls k with the
end position and capture, and the first success of k is returned.
Branches are explored in the priority order of the re module: alternation
left to right, greedy quantifiers longest first, lazy quantifiers
shortest first, so the overall first success coincides with the match
Python would produce. -/
def mM (t : List Char) :
    RE → Nat → Option (List Char) → (Nat → Option (List Char) → Option MRes) → Option MRes
  | .lit l, i, cap, k =>
      if l.isPrefixOf (t.drop i) then k (i + l.length) cap else none
  | .alts ls, i, cap, k =>
      firstSome (ls.map (fun l =>
        if l.isPrefixOf (t.drop i) then k (i + l.length) cap else none))
  | .cls p lo hi lz, i, cap, k =>
      let run := ((t.drop i).takeWhile p).length
      let hiV := match hi with
        | none => run
        | some h => min h run
      if lo > hiV then none
      else
        firstSome (((List.range (hiV - lo + 1)).map
          (fun d => if lz then lo + d else hiV - d)).map
            (fun n => k (i + n) cap))
  | .grp r, i, cap, k =>
      mM t r i cap (fun j _ => k j (some (sliceChars t i j)))
  | .look ls ae, i, cap, k =>
      if lookOk t i ls ae then k i cap else none
  | .bnd, i, cap, k =>
      if atBoundary t i then k i cap else none
  | .cat a b, i, cap, k =>
      mM t a i cap (fun j c => mM t b j c k)

/-- re.search: try each start position from the left, return the first
match (end position and capture). -/
def reSearch (re : RE) (t : List Char) : Option MRes :=
  firstSome ((List.range (t.length + 1)).map
    (fun i => mM t re i none (fun j cap => some (j, cap))))

/-- Scanning loop of re.findall: collect the capture of each
non-overlapping match from left to right, resuming after the end of each
match (advancing one position on a zero-width match).  The fuel argument
bounds the number of scan positions; reFindall supplies enough for the
whole input. -/
def findallAux (t : List Char) (re : RE) : Nat → Nat → List (List Char)
  | 0, _ => []
  | Nat.succ fuel, i =>
      if i > t.length then []
      else
        match mM t re i none (fun j cap => some (j, cap)) with
        | some (j, cap) =>
            cap.getD [] :: findallAux t re fuel (if i < j then j else i + 1)
        | none => findallAux t re fuel (i + 1)

/-- re.findall over the whole input. -/
def reFindall (re : RE) (t : List Char) : List (List Char) :=
  findallAux t re (t.length + 2) 0

/-- Pattern of line 92: Last 24 Hours\s*(\d+)" -/
def re_last24 : RE :=
  .cat (.lit ("Last 24 Hours".toList))
    (.cat (.cls pyIsSpace 0 none false)
      (.cat (.grp (.cls pyIsDigit 1 none false))
        (.lit ['"'])))

/-- Pattern of line 96: Next 1-5 Days\s*(\d+)" -/
def re_next5 : RE :=
  .cat (.lit ("Next 1-5 Days".toList))
    (.cat (.cls pyIsSpace 0 none false)
      (.cat (.grp (.cls pyIsDigit 1 none false))
        (.lit ['"'])))

/-- The seven day-name literals of the time-slot pattern. -/
def dayNames : List (List Char) :=
  ["Sun", "Mon", "Tue", "Wed", "Thu", "Fri", "Sat"].map String.toList

/-- Pattern of line 104: (\d{1,2}[ap])\s+(?:Sun|Mon|Tue|Wed|Thu|Fri|Sat) -/
def re_time : RE :=
  .cat (.grp (.cat (.cls pyIsDigit 1 (some 2) false)
                   (.cls (fun c => c == 'a' || c == 'p') 1 (some 1) false)))
    (.cat (.cls pyIsSpace 1 none false)
      (.alts dayNames))

/-- Pattern of line 111: Temperature\s*°?F\s*([\d\s]+?)(?=Feels Like) -/
def re_tempSection : RE :=
  .cat (.lit ("Temperature".toList))
    (.cat (.cls pyIsSpace 0 none false)
      (.cat (.cls (fun c => c == '°') 0 (some 1) false)
        (.cat (.lit ['F'])
          (.cat (.cls pyIsSpace 0 none false)
            (.cat (.grp (.cls (fun c => pyIsDigit c || pyIsSpace c) 1 none true))
              (.look ["Feels Like".toList] false))))))

/-- Token pattern of line 113: \b(\d{1,2})\b -/
def re_tempTok : RE :=
  .cat .bnd (.cat (.grp (.cls pyIsDigit 1 (some 2) false)) .bnd)

/-- Pattern of line 118: Feels Like\s*°?F\s*([-\d\s]+?)(?=Rel|Humidity) -/
def re_feelsSection : RE :=
  .cat (.lit ("Feels Like".toList))
    (.cat (.cls pyIsSpace 0 none false)
      (.cat (.cls (fun c => c == '°') 0 (some 1) false)
        (.cat (.lit ['F'])
          (.cat (.cls pyIsSpace 0 none false)
            (.cat (.grp (.cls (fun c => c == '-' || pyIsDigit c || pyIsSpace c) 1 none true))
              (.look ["Rel".toList, "Humidity".toList] false))))))

/-- Token pattern of line 120: (-?\d{1,2})\b -/
def re_feelsTok : RE :=
  .cat (.grp (.cat (.cls (fun c => c == '-') 0 (some 1) false)
                   (.cls pyIsDigit 1 (some 2) false)))
    .bnd

/-- Pattern of line 125: Wind Speed\s*mph\s*([A-Za-z\d\s]+?)(?=Wind Gust) -/
def re_windSection : RE :=
  .cat (.lit ("Wind Speed".toList))
    (.cat (.cls pyIsSpace 0 none false)
      (.cat (.lit ("mph".toList))
        (.cat (.cls pyIsSpace 0 none false)
          (.cat (.grp (.cls (fun c => isAsciiAlpha c || pyIsDigit c || pyIsSpace c) 1 none true))
            (.look ["Wind Gust".toList] false)))))

/-- Token pattern of line 127: ([NSEW]{1,3}\d{1,2}) -/
def re_windTok : RE :=
  .grp (.cat (.cls (fun c => c == 'N' || c == 'S' || c == 'E' || c == 'W') 1 (some 3) false)
             (.cls pyIsDigit 1 (some 2) false))

/-- Pattern of line 132: Cloud Cover\s*%?\s*([\d\s]+?)(?=How to read|$) -/
def re_cloudSection : RE :=
  .cat (.lit ("Cloud Cover".toList))
    (.cat (.cls pyIsSpace 0 none false)
      (.cat (.cls (fun c => c == '%') 0 (some 1) false)
        (.cat (.cls pyIsSpace 0 none false)
          (.cat (.grp (.cls (fun c => pyIsDigit c || pyIsSpace c) 1 none true))
            (.look ["How to read".toList] true)))))

/-- Token pattern of line 134: \b(\d{1,3})\b -/
def re_cloudTok : RE :=
  .cat .bnd (.cat (.grp (.cls pyIsDigit 1 (some 3) false)) .bnd)

/-- Capture of the first match of a search pattern, as the string
group(1) returns.  Every pattern passed here has its group on the match
path, so a match always carries a capture; the defensive arm returns
none. -/
def searchGroup (re : RE) (t : List Char) : Option String :=
  match reSearch re t with
  | some (_, some g) => some (String.mk g)
  | some (_, none) => none
  | none => none

/-- Lines 91-94: the Last 24 Hours snow rule. -/
def snow24Rule (t : List Char) : Option String :=
  searchGroup re_last24 t

/-- Lines 96-98: the Next 1-5 Days snow rule. -/
def snowNextRule (t : List Char) : Option String :=
  searchGroup re_next5 t

/-- Lines 104-107: the time-slot rule, capped at six tokens. -/
def timesRule (t : List Char) : List String :=
  ((reFindall re_time t).map String.mk).take 6

/-- Shared shape of the four sectioned rules: search for the section
window, then collect tokens inside it, capped at six.  When the section
pattern does not match, the sequence stays empty (lines 112, 119, 126,
133 guard the assignment). -/
def sectionTokens (secRe tokRe : RE) (t : List Char) : List String :=
  match reSearch secRe t with
  | some (_, some sec) => ((reFindall tokRe sec).map String.mk).take 6
  | some (_, none) => []
  | none => []

/-- Lines 110-115: the Temperature row rule. -/
def tempsRule (t : List Char) : List String :=
  sectionTokens re_tempSection re_tempTok t

/-- Lines 117-122: the Feels Like row rule. -/
def feelsRule (t : List Char) : List String :=
  sectionTokens re_feelsSection re_feelsTok t

/-- Lines 124-129: the Wind Speed row rule. -/
def windsRule (t : List Char) : List String :=
  sectionTokens re_windSection re_windTok t

/-- Lines 131-136: the Cloud Cover row rule. -/
def cloudsRule (t : List Char) : List String :=
  sectionTokens re_cloudSection re_cloudTok t

/-- The hourly dict built at lines 101-136. -/
structure Hourly where
  times : List String
  temps : List String
  feels : List String
  winds : List String
  clouds : List String
deriving Repr, DecidableEq

/-- The dict returned by get_opensnow_data: the two optional snow keys
and the hourly key.  hourly is none exactly when the function returned
the empty dict from its exception handler. -/
structure OpenSnowData where
  last_24h : Option String
  next_5_days : Option String
  hourly : Option Hourly
deriving Repr, DecidableEq

/-- Lines 75-147: get_opensnow_data.  The argument is the page text the
browser fetch produced, or none when the fetch raised, in which case the
except branch returns the empty dict. -/
def get_opensnow_data : Option (List Char) → OpenSnowData
  | none => ⟨none, none, none⟩
  | some t =>
      ⟨snow24Rule t, snowNextRule t,
        some ⟨timesRule t, tempsRule t, feelsRule t, windsRule t, cloudsRule t⟩⟩

/-- Line 172: the f-string one line of the hourly block is built from,
with each sub-field taken from index i of its own sequence when that
sequence is long enough and the placeholder otherwise (lines 168-171). -/
def hourLine (times temps feels winds : List String) (i : Nat) : String :=
  (times.getD i "?") ++ ": " ++ (temps.getD i "?") ++ "° (feels " ++
    (feels.getD i "?") ++ "°), " ++ (winds.getD i "?")

/-- Lines 149-174: format_hourly_forecast.  The argument is the hourly
value looked up in the data dict, which is none exactly when the fetch
failed and the dict is empty: a successful fetch always stores the
hourly key. -/
def format_hourly_forecast : Option Hourly → Option String
  | none => none
  | some h =>
      if h.times.isEmpty || h.temps.isEmpty then none
      else
        let num_hours := min 6 (min h.times.length h.temps.length)
        if num_hours = 0 then none
        else
          some (String.intercalate "\n"
            ((List.range num_hours).map (hourLine h.times h.temps h.feels h.winds)))

/-- Lines 203-207: the snow_parts list, one entry per populated (truthy)
snow key. -/
def snow_parts (data : OpenSnowData) : List String :=
  (match data.last_24h with
   | some v => if v = "" then [] else ["Last 24hrs: " ++ v ++ "\""]
   | none => []) ++
  (match data.next_5_days with
   | some v => if v = "" then [] else ["Next 5 days: " ++ v ++ "\""]
   | none => [])

/-- Lines 199-215: the Telegram caption — the title line, then the snow
line when snow_parts is non-empty, then the hourly block when
format_hourly_forecast produced one. -/
def buildCaption (dateStr : String) (data : OpenSnowData) : String :=
  let c0 := "🎿 Beaver Creek Grooming Report - " ++ dateStr
  let c1 :=
    if snow_parts data = [] then c0
    else c0 ++ "\n❄️ Snow: " ++ String.intercalate " | " (snow_parts data)
  match format_hourly_forecast data.hourly with
  | some h => c1 ++ "\n\nHourly Forecast:\n" ++ h
  | none => c1

/-- Lines 228-246: the shortened SMS caption — date line, optional snow
line, condensed forecast restricted to the first three hours, and the
PDF link. -/
def build_sms_message (dateStr : String) (data : OpenSnowData) : String :=
  let m0 := "Beaver Creek " ++ dateStr ++ "\n"
  let m1 :=
    if snow_parts data = [] then m0
    else m0 ++ "Snow: " ++ String.intercalate " | " (snow_parts data) ++ "\n"
  let h := data.hourly.getD ⟨[], [], [], [], []⟩
  let times := h.times.take 3
  let temps := h.temps.take 3
  let feels := h.feels.take 3
  let m2 :=
    if times.isEmpty || temps.isEmpty then m1
    else
      m1 ++ "Forecast:\n" ++ String.join
        ((List.range (min 3 times.length)).map (fun i =>
          (times.getD i "?") ++ ": " ++ (temps.getD i "?") ++ "°F (feels " ++
            (feels.getD i "?") ++ "°)\n"))
  m2 ++ "grooming.lumiplan.pro/beaver-creek-grooming-map.pdf"

/-- Python truthiness of an optional environment string: falsy when the
variable is unset or set to the empty string. -/
def pyFalsyOpt (o : Option String) : Bool :=
  o.getD "" = ""

/-- Line 35: the recipient list parsed from the comma-separated
SMS_RECIPIENTS value, keeping only entries that are non-empty after
stripping. -/
def smsRecipientList (s : String) : List String :=
  ((s.splitOn ",").map String.trim).filter (fun r => r ≠ "")

/-- The observable outcome of one send_sms call.  The skipped outcomes
are the early returns of lines 27-38, before any SMTP connection is
opened; errorCaught is the except branch of lines 58-59, which swallows
any failure of the SMTP block. -/
inductive SmsOutcome where
  | skippedNoCreds
  | skippedNoRecipients
  | sentAll (n : Nat)
  | errorCaught
deriving Repr, DecidableEq

/-- The configuration and collaborator state send_sms depends on:
SMTP_EMAIL, SMTP_PASSWORD, SMS_RECIPIENTS (lines 21-23, with the
missing-variable default for the recipients), and whether the SMTP
session of lines 43-56 runs without raising. -/
structure SmsEnv where
  smtpEmail : Option String
  smtpPassword : Option String
  smsRecipients : String
  smtpOk : Bool
deriving Repr, DecidableEq

/-- Lines 25-59: send_sms.  Missing configuration returns before any
delivery attempt; an SMTP failure is caught inside the function, so the
function never raises. -/
def send_sms (env : SmsEnv) : SmsOutcome :=
  if pyFalsyOpt env.smtpEmail || pyFalsyOpt env.smtpPassword then .skippedNoCreds
  else if env.smsRecipients = "" then .skippedNoRecipients
  else if smsRecipientList env.smsRecipients = [] then .skippedNoRecipients
  else if env.smtpOk then .sentAll (smsRecipientList env.smsRecipients).length
  else .errorCaught

/-- Line 61-65: get_ordinal_suffix. -/
def get_ordinal_suffix (day : Nat) : String :=
  if 11 ≤ day ∧ day ≤ 13 then "th"
  else if day % 10 = 1 then "st"
  else if day % 10 = 2 then "nd"
  else if day % 10 = 3 then "rd"
  else "th"

/-- Lines 67-73: get_formatted_date, with the clock reading modelled as
the month abbreviation and day number it produced. -/
def get_formatted_date (monthAbbrev : String) (day : Nat) : String :=
  monthAbbrev ++ " " ++ toString day ++ get_ordinal_suffix day

/-- The external-collaborator state one run of send_grooming_report
depends on: the page text the browser fetch produced (none when the
fetch raised — the except branch of get_opensnow_data), whether the PDF
fetch passes raise_for_status and the rasterizer succeeds, whether
bot.send_photo succeeds, and the SMS environment. -/
structure RunEnv where
  pageText : Option String
  pdfOk : Bool
  telegramOk : Bool
  sms : SmsEnv
deriving Repr, DecidableEq

/-- One outward-visible channel action of a run. -/
inductive Event where
  | telegramPhoto (caption : String)
  | smsSend (message : String) (outcome : SmsOutcome)
deriving Repr, DecidableEq

/-- Lines 176-249: send_grooming_report, as the list of channel actions
it performs plus the exception it propagates, if any.  The scrape runs
first (line 182); the PDF fetch and rasterization follow (lines 186-197)
and an error there propagates with no channel reached; the Telegram send
(line 221) is not guarded, so its failure propagates and the SMS channel
is never reached; send_sms runs last and catches its own failures. -/
def send_grooming_report (dateStr : String) (env : RunEnv) : List Event × Option String :=
  let data := get_opensnow_data (env.pageText.map String.toList)
  if !env.pdfOk then ([], some "HTTPError")
  else
    let caption := buildCaption dateStr data
    if !env.telegramOk then ([], some "TelegramError")
    else
      let msg := build_sms_message dateStr data
      ([Event.telegramPhoto caption, Event.smsSend msg (send_sms env.sms)], none)

/-- The ordinal-suffix mapping exactly as the specification words it:
11, 12, 13 give th; otherwise the last digit decides st, nd, rd, with
th as the default. -/
def claimOrdinalSuffix (day : Nat) : String :=
  if day = 11 ∨ day = 12 ∨ day = 13 then "th"
  else if day % 10 = 1 then "st"
  else if day % 10 = 2 then "nd"
  else if day % 10 = 3 then "rd"
  else "th"

theorem sectionTokens_length_le (secRe tokRe : RE) (t : List Char) :
    (sectionTokens secRe tokRe t).length ≤ 6 := by
  unfold sectionTokens
  split
  · exact (List.length_take_le 6 _)
  · simp
  · simp

/-- C4: the produced suffix is th for 11, 12, 13, else st, nd, rd by the
last digit, else th; the eleven sample days produce exactly the listed
suffixes. -/
theorem C4_ordinal_suffix :
    (∀ day : Nat, get_ordinal_suffix day = claimOrdinalSuffix day) ∧
    [1, 2, 3, 4, 11, 12, 13, 21, 22, 23, 31].map get_ordinal_suffix =
      ["st", "nd", "rd", "th", "th", "th", "th", "st", "nd", "rd", "st"] := by
  constructor
  · intro day
    unfold get_ordinal_suffix claimOrdinalSuffix
    by_cases h : day = 11 ∨ day = 12 ∨ day = 13
    · rw [if_pos h, if_pos (show 11 ≤ day ∧ day ≤ 13 by omega)]
    · rw [if_neg h, if_neg (show ¬(11 ≤ day ∧ day ≤ 13) by omega)]
  · rfl

/-- C7: the extractor fills each of the five hourly sequences from its
own independent rule applied to the raw text, and every returned
sequence has length at most six. -/
theorem C7_horizon_cap (t : List Char) :
    (get_opensnow_data (some t)).hourly =
      some ⟨timesRule t, tempsRule t, feelsRule t, windsRule t, cloudsRule t⟩ ∧
    (timesRule t).length ≤ 6 ∧ (tempsRule t).length ≤ 6 ∧ (feelsRule t).length ≤ 6 ∧
    (windsRule t).length ≤ 6 ∧ (cloudsRule t).length ≤ 6 :=
  ⟨rfl, List.length_take_le 6 _, sectionTokens_length_le _ _ t,
    sectionTokens_length_le _ _ t, sectionTokens_length_le _ _ t,
    sectionTokens_length_le _ _ t⟩

/-- C1 (counterexample): with the artifact produced, the SMS channel
fully configured, and the Telegram send raising, the run propagates the
exception and performs no channel action at all — in particular the SMS
channel is never attempted, so the failure is not caught, no failed
result is recorded, and delivery does not continue to the remaining
channel. -/
theorem C1_counterexample :
    send_grooming_report "Jan 1st"
      ⟨some "", true, false, ⟨some "smtp@example.com", some "pw", "5551112222@vtext.com", true⟩⟩ =
      ([], some "TelegramError") := rfl

/-- C1 (amended): the run has exactly two channels, Telegram then SMS,
and records no per-channel result list.  An SMS failure is isolated: it
is caught inside send_sms, so whenever artifact production and the
Telegram send succeed the run completes without raising, performing both
channel actions whatever the SMS outcome.  A Telegram failure is not
isolated: it propagates and aborts the run before the SMS attempt. -/
theorem C1_channel_isolation (dateStr : String) (env : RunEnv) (hpdf : env.pdfOk = true) :
    (env.telegramOk = false → send_grooming_report dateStr env = ([], some "TelegramError")) ∧
    (env.telegramOk = true → ∃ cap msg,
      send_grooming_report dateStr env =
        ([Event.telegramPhoto cap, Event.smsSend msg (send_sms env.sms)], none)) := by
  obtain ⟨pt, pdf, tg, smse⟩ := env
  cases pdf with
  | false => exact nomatch hpdf
  | true =>
    cases tg with
    | false =>
      constructor
      · intro h
        rfl
      · intro htg
        exact nomatch htg
    | true =>
      constructor
      · intro htg
        exact nomatch htg
      · intro h
        exact ⟨_, _, rfl⟩

theorem C1_channel_isolation_witness :
    ∃ cap msg,
      send_grooming_report "Jan 1st"
          ⟨some "", true, true, ⟨some "s@example.com", some "pw", "5551112222@vtext.com", false⟩⟩ =
        ([Event.telegramPhoto cap,
          Event.smsSend msg
            (send_sms ⟨some "s@example.com", some "pw", "5551112222@vtext.com", false⟩)], none) :=
  (C1_channel_isolation "Jan 1st" _ rfl).2 rfl

/-- C2: a scrape failure is recovered locally as the empty record and,
when artifact production and the Telegram send succeed, the run still
dispatches the artifact (with a title-only caption); an artifact fetch
failure is fatal — the run aborts with the exception before any channel
action. -/
theorem C2_error_taxonomy (dateStr : String) (env : RunEnv) :
    (env.pageText = none →
      get_opensnow_data (env.pageText.map String.toList) = ⟨none, none, none⟩ ∧
      (env.pdfOk = true → env.telegramOk = true → ∃ msg,
        send_grooming_report dateStr env =
          ([Event.telegramPhoto ("🎿 Beaver Creek Grooming Report - " ++ dateStr),
            Event.smsSend msg (send_sms env.sms)], none))) ∧
    (env.pdfOk = false → send_grooming_report dateStr env = ([], some "HTTPError")) := by
  obtain ⟨pt, pdf, tg, smse⟩ := env
  constructor
  · intro hpt
    cases pt with
    | some s => exact nomatch hpt
    | none =>
      refine ⟨rfl, ?_⟩
      intro hpdf htg
      cases pdf with
      | false => exact nomatch hpdf
      | true =>
        cases tg with
        | false => exact nomatch htg
        | true => exact ⟨_, rfl⟩
  · intro hpdf
    cases pdf with
    | true => exact nomatch hpdf
    | false => rfl

theorem C2_error_taxonomy_witness :
    ∃ msg,
      send_grooming_report "Jan 1st" ⟨none, true, true, ⟨none, none, "", true⟩⟩ =
        ([Event.telegramPhoto ("🎿 Beaver Creek Grooming Report - " ++ "Jan 1st"),
          Event.smsSend msg (send_sms ⟨none, none, "", true⟩)], none) :=
  ((C2_error_taxonomy "Jan 1st" ⟨none, true, true, ⟨none, none, "", true⟩⟩).1 rfl).2 rfl rfl

/-- C5: when every rule yields nothing on the raw text, extraction
returns the record with both snow fields absent and all five hourly
sequences empty, and the composed caption is exactly the title line. -/
theorem C5_all_absent (dateStr : String) (t : List Char)
    (h1 : snow24Rule t = none) (h2 : snowNextRule t = none)
    (h3 : timesRule t = []) (h4 : tempsRule t = []) (h5 : feelsRule t = [])
    (h6 : windsRule t = []) (h7 : cloudsRule t = []) :
    get_opensnow_data (some t) = ⟨none, none, some ⟨[], [], [], [], []⟩⟩ ∧
    buildCaption dateStr (get_opensnow_data (some t)) =
      "🎿 Beaver Creek Grooming Report - " ++ dateStr := by
  have hd : get_opensnow_data (some t) = ⟨none, none, some ⟨[], [], [], [], []⟩⟩ := by
    simp only [get_opensnow_data]
    rw [h1, h2, h3, h4, h5, h6, h7]
  refine ⟨hd, ?_⟩
  rw [hd]
  rfl

theorem C5_all_absent_witness :
    get_opensnow_data (some ("hello world".toList)) =
      ⟨none, none, some ⟨[], [], [], [], []⟩⟩ ∧
    buildCaption "Jan 1st" (get_opensnow_data (some ("hello world".toList))) =
      "🎿 Beaver Creek Grooming Report - Jan 1st" :=
  C5_all_absent "Jan 1st" _ rfl rfl rfl rfl rfl rfl rfl

/-- C6: when the two snow rules capture 6 and 14 and the hourly rules
yield nothing, extraction returns exactly those snow values and the
caption is the title line followed by the snow line, with no hourly
block. -/
theorem C6_snow_summary (dateStr : String) (t : List Char)
    (h1 : snow24Rule t = some "6") (h2 : snowNextRule t = some "14")
    (h3 : timesRule t = []) (h4 : tempsRule t = []) (h5 : feelsRule t = [])
    (h6 : windsRule t = []) (h7 : cloudsRule t = []) :
    get_opensnow_data (some t) = ⟨some "6", some "14", some ⟨[], [], [], [], []⟩⟩ ∧
    buildCaption dateStr (get_opensnow_data (some t)) =
      "🎿 Beaver Creek Grooming Report - " ++ dateStr ++ "\n❄️ Snow: " ++
        "Last 24hrs: 6\" | Next 5 days: 14\"" := by
  have hd : get_opensnow_data (some t) = ⟨some "6", some "14", some ⟨[], [], [], [], []⟩⟩ := by
    simp only [get_opensnow_data]
    rw [h1, h2, h3, h4, h5, h6, h7]
  refine ⟨hd, ?_⟩
  rw [hd]
  rfl

theorem C6_snow_summary_witness :
    get_opensnow_data (some ("Last 24 Hours 6\" Next 1-5 Days 14\"".toList)) =
      ⟨some "6", some "14", some ⟨[], [], [], [], []⟩⟩ ∧
    buildCaption "Jan 1st"
        (get_opensnow_data (some ("Last 24 Hours 6\" Next 1-5 Days 14\"".toList))) =
      "🎿 Beaver Creek Grooming Report - " ++ "Jan 1st" ++ "\n❄️ Snow: " ++
        "Last 24hrs: 6\" | Next 5 days: 14\"" :=
  C6_snow_summary "Jan 1st" _ rfl rfl rfl rfl rfl rfl rfl

/-- C8: when the SMS credentials are unset or empty, or the recipient
list is absent or parses to nothing, send_sms returns one of its skipped
outcomes before any delivery attempt (its result does not even depend on
whether the SMTP server would succeed), it does not raise, and the rest
of the run is unaffected: the run still completes with both channel
actions once the artifact and Telegram send succeed. -/
theorem C8_missing_config (env : SmsEnv)
    (h : pyFalsyOpt env.smtpEmail = true ∨ pyFalsyOpt env.smtpPassword = true ∨
         smsRecipientList env.smsRecipients = []) :
    (send_sms env = .skippedNoCreds ∨ send_sms env = .skippedNoRecipients) ∧
    (∀ b, send_sms ⟨env.smtpEmail, env.smtpPassword, env.smsRecipients, b⟩ = send_sms env) ∧
    (∀ dateStr pt, ∃ cap msg,
      send_grooming_report dateStr ⟨pt, true, true, env⟩ =
        ([Event.telegramPhoto cap, Event.smsSend msg (send_sms env)], none)) := by
  obtain ⟨em, pw, rec, ok⟩ := env
  by_cases hc : (pyFalsyOpt em || pyFalsyOpt pw) = true
  · refine ⟨Or.inl ?_, fun b => ?_, fun dateStr pt => ⟨_, _, rfl⟩⟩
    · simp only [send_sms, hc, if_pos]
    · simp only [send_sms, hc, if_pos]
  · have hr : smsRecipientList rec = [] := by
      rcases h with h | h | h
      · exact absurd (by simp [h] : (pyFalsyOpt em || pyFalsyOpt pw) = true) hc
      · exact absurd (by simp [h] : (pyFalsyOpt em || pyFalsyOpt pw) = true) hc
      · exact h
    refine ⟨Or.inr ?_, fun b => ?_, fun dateStr pt => ⟨_, _, rfl⟩⟩
    · by_cases hs : rec = ""
      · simp [send_sms, hc, hs]
      · simp [send_sms, hc, hs, hr]
    · by_cases hs : rec = ""
      · simp [send_sms, hc, hs]
      · simp [send_sms, hc, hs, hr]

theorem C8_missing_config_witness :
    (send_sms ⟨none, none, "", true⟩ = .skippedNoCreds ∨
      send_sms ⟨none, none, "", true⟩ = .skippedNoRecipients) ∧
    (∀ b, send_sms ⟨none, none, "", b⟩ = send_sms ⟨none, none, "", true⟩) ∧
    (∀ dateStr pt, ∃ cap msg,
      send_grooming_report dateStr ⟨pt, true, true, ⟨none, none, "", true⟩⟩ =
        ([Event.telegramPhoto cap, Event.smsSend msg (send_sms ⟨none, none, "", true⟩)], none)) :=
  C8_missing_config ⟨none, none, "", true⟩ (Or.inl rfl)

/-- C3 (counterexample): with a one-point horizon and a cloud sequence
long enough to cover it, the aligned output contains no cloud value at
all (the produced line has no character of the cloud token 55), so the
cloud sub-field is not taken from its own sequence even when that
sequence is long enough. -/
theorem C3_counterexample :
    format_hourly_forecast (some ⟨["8a"], ["30"], [], [], ["55"]⟩) =
      some "8a: 30° (feels ?°), ?" ∧
    '5' ∉ "8a: 30° (feels ?°), ?".toList := ⟨rfl, by decide⟩

/-- C3 (amended): the aligner yields nothing when times or temps is
empty; otherwise its horizon is min(6, len(times), len(temps)) and each
line takes time, temperature, feels-like and wind from the same index of
their own sequences, with the placeholder when a sequence is too short —
never shifted; the cloud sequence never influences the output. -/
theorem C3_series_alignment (h : Hourly) :
    (h.times = [] ∨ h.temps = [] → format_hourly_forecast (some h) = none) ∧
    (h.times ≠ [] → h.temps ≠ [] →
      format_hourly_forecast (some h) =
        some (String.intercalate "\n"
          ((List.range (min 6 (min h.times.length h.temps.length))).map
            (hourLine h.times h.temps h.feels h.winds)))) ∧
    (∀ c1 c2 : List String,
      format_hourly_forecast (some ⟨h.times, h.temps, h.feels, h.winds, c1⟩) =
      format_hourly_forecast (some ⟨h.times, h.temps, h.feels, h.winds, c2⟩)) := by
  obtain ⟨ts, tp, fe, wi, cl⟩ := h
  refine ⟨?_, ?_, fun c1 c2 => rfl⟩
  · rintro (h | h)
    · replace h : ts = [] := h
      subst h
      rfl
    · replace h : tp = [] := h
      subst h
      cases ts <;> rfl
  · intro h1 h2
    obtain ⟨a, as, rfl⟩ := List.exists_cons_of_ne_nil h1
    obtain ⟨b, bs, rfl⟩ := List.exists_cons_of_ne_nil h2
    have hne : ¬ (min 6 (min (a :: as).length (b :: bs).length) = 0) := by
      simp only [List.length_cons]
      omega
    simp only [format_hourly_forecast, List.isEmpty_cons, Bool.or_self, if_neg hne]
    rfl

theorem C3_series_alignment_witness :
    format_hourly_forecast
        (some ⟨["1a", "2a", "3a", "4a", "5a", "6a"], ["10", "20"], [], [], []⟩) =
      some "1a: 10° (feels ?°), ?\n2a: 20° (feels ?°), ?" :=
  ((C3_series_alignment ⟨["1a", "2a", "3a", "4a", "5a", "6a"], ["10", "20"], [], [], []⟩).2.1
    (List.cons_ne_nil _ _) (List.cons_ne_nil _ _)).trans rfl

/-- C9 (counterexample): with winds empty across a non-empty horizon the
hourly block still renders a wind placeholder on the per-hour line — the
block is not made of per-field lines and an unpopulated field is not
omitted. -/
theorem C9_counterexample :
    format_hourly_forecast (some ⟨["8a"], ["30"], ["28"], [], []⟩) =
      some "8a: 30° (feels 28°), ?" ∧
    '?' ∈ "8a: 30° (feels 28°), ?".toList := ⟨rfl, by decide⟩

/-- C9 (amended): with a non-empty aligned horizon the caption carries
one hourly block of one line per hour (not per field); when the wind
sequence is empty its slot on every line is the placeholder rather than
an omitted line. -/
theorem C9_hourly_block (dateStr : String) (h : Hourly)
    (h1 : h.times ≠ []) (h2 : h.temps ≠ []) (hw : h.winds = []) :
    ∃ block,
      format_hourly_forecast (some h) = some block ∧
      buildCaption dateStr ⟨none, none, some h⟩ =
        "🎿 Beaver Creek Grooming Report - " ++ dateStr ++ "\n\nHourly Forecast:\n" ++ block ∧
      block = String.intercalate "\n"
        ((List.range (min 6 (min h.times.length h.temps.length))).map (fun i =>
          (h.times.getD i "?") ++ ": " ++ (h.temps.getD i "?") ++ "° (feels " ++
            (h.feels.getD i "?") ++ "°), ?")) := by
  obtain ⟨ts, tp, fe, wi, cl⟩ := h
  replace hw : wi = [] := hw
  subst hw
  obtain ⟨a, as, rfl⟩ := List.exists_cons_of_ne_nil h1
  obtain ⟨b, bs, rfl⟩ := List.exists_cons_of_ne_nil h2
  have hne : ¬ (min 6 (min (a :: as).length (b :: bs).length) = 0) := by
    simp only [List.length_cons]
    omega
  have hfun : hourLine (a :: as) (b :: bs) fe [] = fun i =>
      ((a :: as).getD i "?") ++ ": " ++ ((b :: bs).getD i "?") ++ "° (feels " ++
        (fe.getD i "?") ++ "°), ?" := by
    funext i
    simp only [hourLine, List.getD]
    rw [String.append_assoc]
    congr 1
  have hfmt : format_hourly_forecast (some ⟨a :: as, b :: bs, fe, [], cl⟩) =
      some (String.intercalate "\n"
        ((List.range (min 6 (min (a :: as).length (b :: bs).length))).map
          (hourLine (a :: as) (b :: bs) fe []))) := by
    simp only [format_hourly_forecast, List.isEmpty_cons, Bool.or_self, if_neg hne]
    rfl
  refine ⟨_, hfmt, ?_, ?_⟩
  · simp only [buildCaption, hfmt]
    rfl
  · rw [hfun]

theorem C9_hourly_block_witness :
    ∃ block,
      format_hourly_forecast (some ⟨["8a", "9a"], ["30", "31"], [], [], []⟩) = some block ∧
      buildCaption "Jan 1st" ⟨none, none, some ⟨["8a", "9a"], ["30", "31"], [], [], []⟩⟩ =
        "🎿 Beaver Creek Grooming Report - " ++ "Jan 1st" ++ "\n\nHourly Forecast:\n" ++ block ∧
      block = String.intercalate "\n"
        ((List.range (min 6 (min (["8a", "9a"] : List String).length
            (["30", "31"] : List String).length))).map (fun i =>
          ((["8a", "9a"] : List String).getD i "?") ++ ": " ++
            ((["30", "31"] : List String).getD i "?") ++ "° (feels " ++
            (([] : List String).getD i "?") ++ "°), ?")) :=
  C9_hourly_block "Jan 1st" ⟨["8a", "9a"], ["30", "31"], [], [], []⟩
    (List.cons_ne_nil _ _) (List.cons_ne_nil _ _) rfl

/-- C10 (counterexample): a negative value inside the Temperature
section does not reach the temps sequence with its sign stripped — it
prevents the Temperature section rule from matching at all, so temps is
empty, while the Feels Like rule on the same shape of content preserves
the minus sign. -/
theorem C10_counterexample :
    tempsRule ("Temperature °F -5 Feels Like °F -5 Rel".toList) = [] ∧
    feelsRule ("Temperature °F -5 Feels Like °F -5 Rel".toList) = ["-5"] := ⟨rfl, rfl⟩

theorem firstSome_mem {α : Type} : ∀ {l : List (Option α)} {a : α},
    firstSome l = some a → some a ∈ l := by
  intro l
  induction l with
  | nil =>
    intro a h
    simp [firstSome] at h
  | cons x xs ih =>
    intro a h
    cases x with
    | some b =>
      simp only [firstSome] at h
      rw [h]
      exact List.mem_cons_self _ _
    | none =>
      simp only [firstSome] at h
      exact List.mem_cons_of_mem _ (ih h)

theorem take_all_of_le_takeWhile {p : Char → Bool} : ∀ (l : List Char) (n : Nat),
    n ≤ (l.takeWhile p).length → (l.take n).all p = true := by
  intro l
  induction l with
  | nil =>
    intro n h
    simp
  | cons c cs ih =>
    intro n h
    cases n with
    | zero => simp
    | succ m =>
      by_cases hp : p c
      · rw [List.takeWhile_cons, if_pos hp, List.length_cons] at h
        rw [List.take_succ_cons, List.all_cons, hp, Bool.true_and]
        exact ih m (by omega)
      · rw [List.takeWhile_cons, if_neg hp] at h
        simp at h

/-- Any successful match of the temperature token pattern captures a
slice drawn from a digit run, so the capture consists of digits only. -/
theorem mM_tempTok_digits {t : List Char} {i : Nat} {r : MRes}
    (h : mM t re_tempTok i none (fun j cap => some (j, cap)) = some r) :
    ∃ l, r.2 = some l ∧ l.all pyIsDigit = true := by
  unfold re_tempTok at h
  simp only [mM] at h
  split at h
  · split at h
    · exact absurd h (by simp)
    · have hm := firstSome_mem h
      rcases List.mem_map.mp hm with ⟨n, hn, heq⟩
      have hnle : n ≤ (List.takeWhile pyIsDigit (List.drop i t)).length := by
        rcases List.mem_map.mp hn with ⟨d, hd, rfl⟩
        simp only [Bool.false_eq_true, if_false]
        calc 2 ⊓ (List.takeWhile pyIsDigit (List.drop i t)).length - d
            ≤ 2 ⊓ (List.takeWhile pyIsDigit (List.drop i t)).length := Nat.sub_le _ _
          _ ≤ _ := Nat.min_le_right _ _
      by_cases hb : atBoundary t (i + n) = true
      · rw [if_pos hb] at heq
        injection heq with hx
        refine ⟨sliceChars t i (i + n), ?_, ?_⟩
        · rw [← hx]
        · have hsl : sliceChars t i (i + n) = (t.drop i).take n := by
            simp [sliceChars, Nat.add_sub_cancel_left]
          rw [hsl]
          exact take_all_of_le_takeWhile _ n hnle
      · rw [if_neg hb] at heq
        exact absurd heq (by simp)
  · exact absurd h (by simp)

theorem findallAux_tempTok_digits (t : List Char) :
    ∀ (fuel i : Nat) (tok : List Char),
      tok ∈ findallAux t re_tempTok fuel i → tok.all pyIsDigit = true := by
  intro fuel
  induction fuel with
  | zero =>
    intro i tok htok
    simp [findallAux] at htok
  | succ f ih =>
    intro i tok htok
    rw [findallAux] at htok
    by_cases hi : i > t.length
    · rw [if_pos hi] at htok
      simp at htok
    · rw [if_neg hi] at htok
      cases hmm : mM t re_tempTok i none (fun j cap => some (j, cap)) with
      | none =>
        rw [hmm] at htok
        exact ih _ _ htok
      | some r =>
        obtain ⟨j, cap⟩ := r
        rw [hmm] at htok
        rcases List.mem_cons.mp htok with hh | hh
        · obtain ⟨l, hl, hall⟩ := mM_tempTok_digits hmm
          simp only at hl
          rw [hh, hl]
          simpa using hall
        · exact ih _ _ hh

/-- C10 (amended): every token the temperature rule ever returns is an
unsigned string of digits, but a negative value inside the Temperature
section does not surface with its sign stripped: the section body class
allows only digits and whitespace, so such a section fails to match and
temps is empty, while the feels-like rule preserves a leading minus. -/
theorem C10_negative_temperature :
    (∀ (t : List Char), ∀ tok ∈ tempsRule t, tok.toList.all pyIsDigit = true) ∧
    tempsRule ("Temperature °F -5 Feels Like °F -5 Rel".toList) = [] ∧
    feelsRule ("Temperature °F -5 Feels Like °F -5 Rel".toList) = ["-5"] := by
  refine ⟨?_, rfl, rfl⟩
  intro t tok htok
  unfold tempsRule sectionTokens at htok
  split at htok
  · have h2 := List.take_subset _ _ htok
    rcases List.mem_map.mp h2 with ⟨l, hl, rfl⟩
    have hall : l.all pyIsDigit = true := by
      unfold reFindall at hl
      exact findallAux_tempTok_digits _ _ _ _ hl
    simpa [String.toList] using hall
  · simp at htok
  · simp at htok

theorem C10_negative_temperature_witness :
    ("7".toList).all pyIsDigit = true :=
  C10_negative_temperature.1 ("Temperature F 7 Feels Like".toList) "7" (by decide)
